import Mathlib

/-!
Verification of the AgentID service (BankID bridge issuing pseudonymous JWTs).

This file shallowly embeds the core of the repository:
  * src/lib/jwt.ts (unnamed part 002): HMAC-SHA256 subject derivation and
    RS256 JWT claim construction (the signature itself is abstracted; the
    header and payload that get signed are modelled structurally).
  * src/lib/store.ts: the Redis-backed session store with status-dependent
    TTLs, modelled as an association list of serialized records plus the
    TTL attached by each SET.
  * src/lib/grandid.ts: the GetSession response union and its type guards.
  * src/app/api/auth/[sessionId]/poll/route.ts: the poll endpoint handler.
  * src/app/api/auth/status (unnamed part 000): the status endpoint handler.

Machine words are Nat with explicit reduction mod 2^32, matching the
byte-and-word arithmetic of SHA-256.
-/

set_option maxRecDepth 4000

/-! ## Bytes, words, hex and UTF-8 -/

/-- Reduction of a Nat to a 32-bit word value. -/
def mod32 (x : Nat) : Nat := x % 4294967296

/-- Addition of 32-bit words. -/
def add32 (a b : Nat) : Nat := mod32 (a + b)

/-- Right rotation of a 32-bit word by n bits. -/
def rotr32 (x n : Nat) : Nat := mod32 ((x >>> n) ||| (x <<< (32 - n)))

/-- Big-endian bytes of a 32-bit word. -/
def word32Bytes (w : Nat) : List Nat :=
  [(w >>> 24) &&& 255, (w >>> 16) &&& 255, (w >>> 8) &&& 255, w &&& 255]

/-- Big-endian 8-byte encoding of a Nat (the SHA-256 length field). -/
def beBytes8 (n : Nat) : List Nat :=
  [(n >>> 56) &&& 255, (n >>> 48) &&& 255, (n >>> 40) &&& 255, (n >>> 32) &&& 255,
   (n >>> 24) &&& 255, (n >>> 16) &&& 255, (n >>> 8) &&& 255, n &&& 255]

/-- Lower-case hex digit for a value below 16. -/
def hexChar (n : Nat) : Char :=
  if n < 10 then Char.ofNat (48 + n) else Char.ofNat (87 + n)

/-- Lower-case hex string of a byte list, as produced by digest with hex. -/
def hexDigest (bytes : List Nat) : String :=
  String.mk (bytes.flatMap (fun b => [hexChar (b / 16), hexChar (b % 16)]))

/-- UTF-8 encoding of a single character, as a list of byte values. -/
def charUtf8 (c : Char) : List Nat :=
  let n := c.toNat
  if n < 128 then [n]
  else if n < 2048 then [192 ||| (n >>> 6), 128 ||| (n &&& 63)]
  else if n < 65536 then
    [224 ||| (n >>> 12), 128 ||| ((n >>> 6) &&& 63), 128 ||| (n &&& 63)]
  else
    [240 ||| (n >>> 18), 128 ||| ((n >>> 12) &&& 63),
     128 ||| ((n >>> 6) &&& 63), 128 ||| (n &&& 63)]

/-- UTF-8 encoding of a string, as a list of byte values. -/
def utf8Bytes (s : String) : List Nat := s.data.flatMap charUtf8

/-! ## SHA-256 -/

/-- The eight SHA-256 chaining words. -/
structure Hash8 where
  a : Nat
  b : Nat
  c : Nat
  d : Nat
  e : Nat
  f : Nat
  g : Nat
  h : Nat
deriving Repr, DecidableEq

/-- SHA-256 initial hash value, in decimal. -/
def sha256H0 : Hash8 :=
  ⟨1779033703, 3144134277, 1013904242, 2773480762,
   1359893119, 2600822924, 528734635, 1541459225⟩

/-- SHA-256 round constants, in decimal. -/
def sha256K : List Nat :=
  [1116352408, 1899447441, 3049323471, 3921009573, 961987163,
   1508970993, 2453635748, 2870763221, 3624381080, 310598401,
   607225278, 1426881987, 1925078388, 2162078206, 2614888103,
   3248222580, 3835390401, 4022224774, 264347078, 604807628,
   770255983, 1249150122, 1555081692, 1996064986, 2554220882,
   2821834349, 2952996808, 3210313671, 3336571891, 3584528711,
   113926993, 338241895, 666307205, 773529912, 1294757372,
   1396182291, 1695183700, 1986661051, 2177026350, 2456956037,
   2730485921, 2820302411, 3259730800, 3345764771, 3516065817,
   3600352804, 4094571909, 275423344, 430227734, 506948616,
   659060556, 883997877, 958139571, 1322822218, 1537002063,
   1747873779, 1955562222, 2024104815, 2227730452, 2361852424,
   2428436474, 2756734187, 3204031479, 3329325298]

/-- SHA-256 small sigma 0. -/
def ssig0 (x : Nat) : Nat := rotr32 x 7 ^^^ rotr32 x 18 ^^^ (x >>> 3)

/-- SHA-256 small sigma 1. -/
def ssig1 (x : Nat) : Nat := rotr32 x 17 ^^^ rotr32 x 19 ^^^ (x >>> 10)

/-- SHA-256 big sigma 0. -/
def bsig0 (x : Nat) : Nat := rotr32 x 2 ^^^ rotr32 x 13 ^^^ rotr32 x 22

/-- SHA-256 big sigma 1. -/
def bsig1 (x : Nat) : Nat := rotr32 x 6 ^^^ rotr32 x 11 ^^^ rotr32 x 25

/-- SHA-256 choice function. -/
def shaCh (x y z : Nat) : Nat := (x &&& y) ^^^ ((x ^^^ 4294967295) &&& z)

/-- SHA-256 majority function. -/
def shaMaj (x y z : Nat) : Nat := (x &&& y) ^^^ (x &&& z) ^^^ (y &&& z)

/-- Pack a 64-byte block into its first 16 message-schedule words. -/
def packWords : List Nat → List Nat
  | a :: b :: c :: d :: rest =>
      ((a <<< 24) ||| (b <<< 16) ||| (c <<< 8) ||| d) :: packWords rest
  | _ => []

/-- Append the next message-schedule word to a partial schedule. -/
def extendStep (w : List Nat) : List Nat :=
  let l := w.length
  w ++ [add32 (add32 (ssig1 (w.getD (l - 2) 0)) (w.getD (l - 7) 0))
          (add32 (ssig0 (w.getD (l - 15) 0)) (w.getD (l - 16) 0))]

/-- One SHA-256 round: fold the state over a pair of round constant and
schedule word. -/
def sha256Round (st : Hash8) (kw : Nat × Nat) : Hash8 :=
  let t1 := add32 st.h (add32 (bsig1 st.e)
    (add32 (shaCh st.e st.f st.g) (add32 kw.1 kw.2)))
  let t2 := add32 (bsig0 st.a) (shaMaj st.a st.b st.c)
  ⟨add32 t1 t2, st.a, st.b, st.c, add32 st.d t1, st.e, st.f, st.g⟩

/-- Compress a single 64-byte block into the chaining state. -/
def sha256Compress (st : Hash8) (block : List Nat) : Hash8 :=
  let w := extendStep^[48] (packWords block)
  let r := (sha256K.zip w).foldl sha256Round st
  ⟨add32 st.a r.a, add32 st.b r.b, add32 st.c r.c, add32 st.d r.d,
   add32 st.e r.e, add32 st.f r.f, add32 st.g r.g, add32 st.h r.h⟩

/-- SHA-256 padding: append 0x80, zero bytes, and the 64-bit bit length. -/
def padMessage (msg : List Nat) : List Nat :=
  let l := msg.length
  msg ++ [128] ++ List.replicate ((119 - l % 64) % 64) 0 ++ beBytes8 (l * 8)

/-- Split a byte list into successive 64-byte blocks, with structural fuel
so the kernel can evaluate it. -/
def toBlocksFuel : Nat → List Nat → List (List Nat)
  | 0, _ => []
  | _, [] => []
  | fuel + 1, l => l.take 64 :: toBlocksFuel fuel (l.drop 64)

/-- Split a byte list into successive 64-byte blocks. -/
def toBlocks (l : List Nat) : List (List Nat) := toBlocksFuel (l.length + 1) l

/-- SHA-256 digest of a byte list, as 32 bytes. -/
def sha256 (msg : List Nat) : List Nat :=
  let st := (toBlocks (padMessage msg)).foldl sha256Compress sha256H0
  word32Bytes st.a ++ word32Bytes st.b ++ word32Bytes st.c ++ word32Bytes st.d ++
  word32Bytes st.e ++ word32Bytes st.f ++ word32Bytes st.g ++ word32Bytes st.h

/-! ## HMAC-SHA256 -/

/-- HMAC-SHA256 over byte lists, block size 64. -/
def hmacSha256 (keyBytes msg : List Nat) : List Nat :=
  let k0 := if keyBytes.length > 64 then sha256 keyBytes else keyBytes
  let kp := k0 ++ List.replicate (64 - k0.length) 0
  let ipad := kp.map (· ^^^ 54)
  let opad := kp.map (· ^^^ 92)
  sha256 (opad ++ sha256 (ipad ++ msg))

/-! ## Environment and JWT issuer (src/lib/jwt.ts, unnamed part 002) -/

/-- The process environment variables the jwt module reads. Only presence
and value matter to the embedded control flow. -/
structure Env where
  JWT_HMAC_SECRET : Option String := none
  JWT_PRIVATE_KEY : Option String := none
deriving Repr, DecidableEq

/-- Errors thrown by the jwt module when required key material is absent. -/
inductive JwtError where
  | missingHmacSecret
  | missingPrivateKey
deriving Repr, DecidableEq

/-- Fixed issuer string ISSUER from src/lib/jwt.ts. -/
def ISSUER : String := "agentid"

/-- Fixed expiry specifier EXPIRY from src/lib/jwt.ts, consumed by jose
setExpirationTime. -/
def EXPIRY : String := "5m"

/-- Number of seconds jose adds to the current time for the EXPIRY
specifier "5m". -/
def expirySeconds : Nat := 5 * 60

/-- Fixed key identifier KEY_ID from src/lib/jwt.ts. -/
def KEY_ID : String := "agentid-key-1"

/-- Derives the pseudonymous subject: hex-encoded HMAC-SHA256 of the
personal number keyed by JWT_HMAC_SECRET; throws when the secret is not
set (src/lib/jwt.ts deriveSubject). -/
def deriveSubject (env : Env) (personalNumber : String) : Except JwtError String :=
  match env.JWT_HMAC_SECRET with
  | none => .error .missingHmacSecret
  | some secret =>
      .ok (hexDigest (hmacSha256 (utf8Bytes secret) (utf8Bytes personalNumber)))

/-- A JSON scalar appearing as a JWT claim value. -/
inductive JsonValue where
  | str (s : String)
  | num (n : Nat)
deriving Repr, DecidableEq

/-- The signed content of a jose SignJWT: the protected header fields and
the payload claims, each as ordered name-value lists. -/
structure JoseJwt where
  header : List (String × String)
  payload : List (String × JsonValue)
deriving Repr, DecidableEq

/-- Input type AgentIdClaims of issueJwt: only the personal number, used
solely to derive the subject. -/
structure AgentIdClaims where
  personalNumber : String
deriving Repr, DecidableEq

/-- Builds and signs the AgentID JWT (src/lib/jwt.ts issueJwt). The private
key is loaded first (throwing when JWT_PRIVATE_KEY is absent), then the
subject is derived, then the payload is assembled: auth_method, iat (now),
iss, sub, jti (fresh UUID, a parameter here), exp (now plus 5 minutes).
The RS256 signature is not modelled; the token is its signed content. -/
def issueJwt (env : Env) (now : Nat) (jti : String) (claims : AgentIdClaims) :
    Except JwtError JoseJwt :=
  match env.JWT_PRIVATE_KEY with
  | none => .error .missingPrivateKey
  | some _ =>
      match deriveSubject env claims.personalNumber with
      | .error e => .error e
      | .ok sub =>
          .ok { header := [("alg", "RS256"), ("kid", KEY_ID)],
                payload := [("auth_method", .str "bankid"),
                            ("iat", .num now),
                            ("iss", .str ISSUER),
                            ("sub", .str sub),
                            ("jti", .str jti),
                            ("exp", .num (now + expirySeconds))] }

/-- Looks up a numeric claim in a token payload. -/
def payloadNum (t : JoseJwt) (k : String) : Option Nat :=
  match t.payload.find? (fun p => p.1 == k) with
  | some (_, .num n) => some n
  | _ => none

/-- The string claim values of a token payload. -/
def payloadStrings (t : JoseJwt) : List String :=
  t.payload.filterMap (fun p => match p.2 with | .str s => some s | _ => none)

/-- Difference between the exp and iat claims of an issuance result, when
both are present. -/
def tokenExpMinusIat : Except JwtError JoseJwt → Option Nat
  | .ok t =>
      match payloadNum t "exp", payloadNum t "iat" with
      | some e, some i => some (e - i)
      | _, _ => none
  | .error _ => none

/-! ## Session store (src/lib/store.ts, Redis mode) -/

/-- Provider-released identity attributes as persisted by the poll route
(interface UserAttributes in src/lib/store.ts). -/
structure UserAttributes where
  personalNumber : String
  name : String
  givenName : String
  surname : String
deriving Repr, DecidableEq

/-- Session status union from src/lib/store.ts. -/
inductive SessionStatus where
  | pending
  | complete
  | failed
deriving Repr, DecidableEq

/-- Stored session record (interface Session in src/lib/store.ts).
Optional TS fields are Options. -/
structure Session where
  grandidSessionId : String
  status : SessionStatus
  jwt : Option String := none
  userAttributes : Option UserAttributes := none
  hintCode : Option String := none
  createdAt : Nat
  completedAt : Option Nat := none
deriving Repr, DecidableEq

/-- TTL for sessions still pending (PENDING_TTL_S, ten minutes). -/
def PENDING_TTL_S : Nat := 10 * 60

/-- TTL for completed sessions (COMPLETE_TTL_S, one hour). -/
def COMPLETE_TTL_S : Nat := 60 * 60

/-- Status-dependent expiry (ttlFor in src/lib/store.ts): the long TTL
exactly when the status is complete, the short TTL otherwise. -/
def ttlFor (session : Session) : Nat :=
  if session.status = .complete then COMPLETE_TTL_S else PENDING_TTL_S

/-- One Redis value plus the expiry attached by the SET that wrote it. -/
structure StoredEntry where
  session : Session
  ttlSeconds : Nat
deriving Repr, DecidableEq

/-- The session store: the Redis keyspace restricted to the session
namespace, as an association list keyed by sessionId. -/
abbrev Store : Type := List (String × StoredEntry)

/-- Raw keyed read of an entry, including its TTL. -/
def storeFind : Store → String → Option StoredEntry
  | [], _ => none
  | p :: rest, sid => if p.1 == sid then some p.2 else storeFind rest sid

/-- Keyed write replacing the entry under an existing key. -/
def storeSet : Store → String → StoredEntry → Store
  | [], _, _ => []
  | p :: rest, sid, e => (if p.1 == sid then (p.1, e) else p) :: storeSet rest sid e

/-- Reads a session (getSession in src/lib/store.ts): the parsed record, or
none when the key is absent or expired. -/
def getStoredSession (store : Store) (sid : String) : Option Session :=
  (storeFind store sid).map StoredEntry.session

/-- A partial update as accepted by updateSession: every field of Session
except grandidSessionId and createdAt, each optionally present. -/
structure SessionUpdate where
  status : Option SessionStatus := none
  jwt : Option String := none
  userAttributes : Option UserAttributes := none
  hintCode : Option String := none
  completedAt : Option Nat := none
deriving Repr, DecidableEq

/-- Object-spread merge of a partial update over an existing record:
fields present in the update win, all others are kept. -/
def mergeSession (s : Session) (u : SessionUpdate) : Session :=
  { grandidSessionId := s.grandidSessionId
    status := u.status.getD s.status
    jwt := match u.jwt with | some j => some j | none => s.jwt
    userAttributes := match u.userAttributes with | some a => some a | none => s.userAttributes
    hintCode := match u.hintCode with | some h => some h | none => s.hintCode
    createdAt := s.createdAt
    completedAt := match u.completedAt with | some t => some t | none => s.completedAt }

/-- Creates a fresh pending session under a new id with the pending TTL
(createSession in src/lib/store.ts); the random UUID is a parameter. -/
def createSession (store : Store) (newId : String) (grandidSessionId : String)
    (now : Nat) : Store :=
  (newId, { session := { grandidSessionId := grandidSessionId,
                         status := .pending, createdAt := now },
            ttlSeconds := PENDING_TTL_S }) :: store

/-- Merges a partial update over the stored record and rewrites it with
the TTL re-derived from the updated record; no-op when the key is absent
(updateSession in src/lib/store.ts, Redis mode). -/
def updateSession (store : Store) (sid : String) (u : SessionUpdate) : Store :=
  match storeFind store sid with
  | none => store
  | some e =>
      let updated := mergeSession e.session u
      storeSet store sid { session := updated, ttlSeconds := ttlFor updated }

/-! ## GrandID client response union (src/lib/grandid.ts) -/

/-- The message object inside a BANKID_MSG grandidObject. -/
structure GrandidMessage where
  status : String
  hintCode : String
deriving Repr, DecidableEq

/-- The grandidObject of a pending or failed GetSession response. -/
structure GrandidObject where
  message : GrandidMessage
  sessionId : String := ""
  qrCode : Option String := none
deriving Repr, DecidableEq

/-- The errorObject of an error or NOTLOGGEDIN response. -/
structure ErrorObject where
  code : String
  message : String
deriving Repr, DecidableEq

/-- The full attribute set released on a completed GrandID session
(interface GetSessionComplete in src/lib/grandid.ts). -/
structure GrandidUserAttributes where
  personalNumber : String
  name : String
  givenName : String
  surname : String
  ipAddress : String := ""
  notBefore : String := ""
  notAfter : String := ""
  signature : String := ""
  ocspResponse : String := ""
  uhi : String := ""
  bankIdIssueDate : String := ""
deriving Repr, DecidableEq

/-- A GetSession response: the union of the provider shapes, modelled by
which fields are present, matching the field-presence type guards. -/
structure GetSessionResponse where
  grandidObject : Option GrandidObject := none
  userAttributes : Option GrandidUserAttributes := none
  errorObject : Option ErrorObject := none
deriving Repr, DecidableEq

/-- Type guard isComplete: the userAttributes field is present. -/
def isComplete (r : GetSessionResponse) : Bool := r.userAttributes.isSome

/-- Type guard isPending: a grandidObject is present with message status
pending. -/
def isPending (r : GetSessionResponse) : Bool :=
  match r.grandidObject with
  | some o => o.message.status == "pending"
  | none => false

/-- Type guard isFailed: a grandidObject is present with message status
failed. -/
def isFailed (r : GetSessionResponse) : Bool :=
  match r.grandidObject with
  | some o => o.message.status == "failed"
  | none => false

/-- Type guard isNotLoggedIn: an errorObject is present with code
NOTLOGGEDIN. -/
def isNotLoggedIn (r : GetSessionResponse) : Bool :=
  match r.errorObject with
  | some e => e.code == "NOTLOGGEDIN"
  | none => false

/-! ## Poll endpoint (src/app/api/auth/[sessionId]/poll/route.ts) -/

/-- The JSON bodies the poll endpoint returns. -/
inductive PollResponse where
  | notFound
  | completeR
  | failedR (hintCode : Option String)
  | unreachable
  | jwtError
  | pendingR (hintCode : Option String) (qrCode : Option String)
deriving Repr, DecidableEq

/-- The HTTP status code attached to each poll response body. -/
def pollHttpStatus : PollResponse → Nat
  | .notFound => 404
  | .unreachable => 502
  | .jwtError => 500
  | _ => 200

/-- The four provider attributes the poll route destructures and retains
server-side. -/
def retainedAttributes (ua : GrandidUserAttributes) : UserAttributes :=
  { personalNumber := ua.personalNumber, name := ua.name,
    givenName := ua.givenName, surname := ua.surname }

/-- The store record persisted on the first observed completion: one merge
carrying status, jwt, userAttributes and completedAt. -/
def completeUpdate (jwt : String) (ua : GrandidUserAttributes) (now : Nat) :
    SessionUpdate :=
  { status := some .complete, jwt := some jwt,
    userAttributes := some (retainedAttributes ua),
    completedAt := some now }

/-- The store record persisted when JWT issuance throws. -/
def jwtErrorUpdate : SessionUpdate :=
  { status := some .failed, hintCode := some "JWT_ERROR" }

/-- The GET handler of the poll route. External effects are parameters:
providerResult is none when the GrandID fetch threw (transport failure),
issueResult is the outcome of the awaited issueJwt call used only on the
complete branch, and now is the Date.now timestamp. Returns the response
body paired with the store after any mutation. -/
def pollGET (store : Store) (sessionId : String)
    (providerResult : Option GetSessionResponse)
    (issueResult : Except JwtError String) (now : Nat) :
    PollResponse × Store :=
  match getStoredSession store sessionId with
  | none => (.notFound, store)
  | some session =>
    match session.status with
    | .complete => (.completeR, store)
    | .failed => (.failedR session.hintCode, store)
    | .pending =>
      match providerResult with
      | none => (.unreachable, store)
      | some r =>
        match r.userAttributes with
        | some ua =>
            (match issueResult with
             | .ok jwt =>
                 (.completeR, updateSession store sessionId (completeUpdate jwt ua now))
             | .error _ =>
                 (.jwtError, updateSession store sessionId jwtErrorUpdate))
        | none =>
          match r.grandidObject with
          | some o =>
              if o.message.status == "failed" then
                (.failedR (some o.message.hintCode),
                 updateSession store sessionId
                   { status := some .failed, hintCode := some o.message.hintCode })
              else if o.message.status == "pending" then
                (.pendingR (some o.message.hintCode) o.qrCode, store)
              else if isNotLoggedIn r then
                (.pendingR (some "outstandingTransaction") none, store)
              else (.pendingR none none, store)
          | none =>
              if isNotLoggedIn r then
                (.pendingR (some "outstandingTransaction") none, store)
              else (.pendingR none none, store)

/-! ## Status endpoint (src/app/api/auth/status, unnamed part 000) -/

/-- The JSON bodies the status endpoint returns. -/
inductive StatusResponse where
  | missingParam
  | notFound
  | completeR (jwt : String)
  | failedR (hintCode : String)
  | pendingR
deriving Repr, DecidableEq

/-- The tail of the status handler after the complete-with-jwt check:
failed with its hint code (defaulting to unknown), else pending. -/
def statusFallback (s : Session) : StatusResponse :=
  if s.status = .failed then .failedR (s.hintCode.getD "unknown") else .pendingR

/-- The GET handler of the status route. The sessionId query parameter is
optional; a stored session is returned as complete only when its status is
complete and its jwt field is present and truthy (JS truthiness: the empty
string is falsy). -/
def statusGET (store : Store) (sessionIdParam : Option String) : StatusResponse :=
  match sessionIdParam with
  | none => .missingParam
  | some sid =>
    match getStoredSession store sid with
    | none => .notFound
    | some s =>
      match s.jwt with
      | some j =>
          if s.status = .complete ∧ j ≠ "" then .completeR j else statusFallback s
      | none => statusFallback s

/-! ## Concrete fixtures used by witnesses and counterexamples -/

/-- A concrete environment with both key material variables set. -/
def envT : Env :=
  { JWT_HMAC_SECRET := some "test-secret", JWT_PRIVATE_KEY := some "test-pem" }

/-- A concrete completed session. -/
def sessionCompleteT : Session :=
  { grandidSessionId := "g-1", status := .complete, jwt := some "token-1",
    createdAt := 5, completedAt := some 9 }

/-- A concrete failed session. -/
def sessionFailedT : Session :=
  { grandidSessionId := "g-2", status := .failed, hintCode := some "userCancel",
    createdAt := 5 }

/-- A concrete pending session. -/
def sessionPendingT : Session :=
  { grandidSessionId := "g-3", status := .pending, createdAt := 5 }

/-- A concrete store holding one terminal and one pending session. -/
def storeT : Store :=
  [("sid-c", { session := sessionCompleteT, ttlSeconds := COMPLETE_TTL_S }),
   ("sid-f", { session := sessionFailedT, ttlSeconds := PENDING_TTL_S }),
   ("sid-p", { session := sessionPendingT, ttlSeconds := PENDING_TTL_S })]

/-- Concrete provider-released attributes. -/
def grandidAttributesT : GrandidUserAttributes :=
  { personalNumber := "199001010000", name := "Anna Andersson",
    givenName := "Anna", surname := "Andersson" }

/-- A concrete completed GrandID response. -/
def responseCompleteT : GetSessionResponse :=
  { userAttributes := some grandidAttributesT }

/-- A concrete GrandID response matching none of the four classified
shapes: a provider error object that is not NOTLOGGEDIN. -/
def responseWeirdT : GetSessionResponse :=
  { errorObject := some { code := "INTERNALERROR", message := "boom" } }

/-- A concrete partial update setting only the status. -/
def updateStatusOnlyT : SessionUpdate := { status := some .complete }

/-- A concrete session marked complete whose jwt was never stored. -/
def sessionCompleteNoJwtT : Session :=
  { grandidSessionId := "g-4", status := .complete, createdAt := 5 }

/-- A concrete store holding the complete-without-jwt session. -/
def storeNoJwtT : Store :=
  [("sid-n", { session := sessionCompleteNoJwtT, ttlSeconds := COMPLETE_TTL_S })]

/-- The issuance call the poll route makes on a completed response: only
the personal number from the destructured attributes reaches issueJwt. -/
def issueFromAttributes (env : Env) (now : Nat) (jti : String)
    (ua : GrandidUserAttributes) : Except JwtError JoseJwt :=
  issueJwt env now jti { personalNumber := ua.personalNumber }

/-- The signed content issueJwt produces for a given secret, personal
number, timestamp and token id. -/
def agentIdToken (secret pn : String) (now : Nat) (jti : String) : JoseJwt :=
  { header := [("alg", "RS256"), ("kid", KEY_ID)],
    payload := [("auth_method", .str "bankid"),
                ("iat", .num now),
                ("iss", .str ISSUER),
                ("sub", .str (hexDigest (hmacSha256 (utf8Bytes secret)
                    (utf8Bytes pn)))),
                ("jti", .str jti),
                ("exp", .num (now + expirySeconds))] }

/-- Provider attributes sharing the personal number of the fixture but
with different name fields. -/
def grandidAttributesAltT : GrandidUserAttributes :=
  { personalNumber := "199001010000", name := "Bo Berg",
    givenName := "Bo", surname := "Berg" }

/-- Known-answer check of the SHA-256 embedding (FIPS 180-2 vector). -/
theorem sha256_abc_vector : hexDigest (sha256 (utf8Bytes "abc")) =
    "ba7816bf8f01cfea414140de5dae2223b00361a396177a9cb410ff61f20015ad" := by rfl

/-- Known-answer check of the HMAC-SHA256 embedding (RFC 2202 style vector). -/
theorem hmac_fox_vector :
    hexDigest (hmacSha256 (utf8Bytes "key")
      (utf8Bytes "The quick brown fox jumps over the lazy dog")) =
    "f7bc83f430538424b13298e6aa6fb143ef4d59a14946175997479dbc2d1a3cd8" := by rfl

/-! ## Store lemmas -/

/-- Writing an existing key makes it the value later reads observe. -/
theorem storeFind_storeSet_self (store : Store) (sid : String)
    (e e₀ : StoredEntry) (h : storeFind store sid = some e₀) :
    storeFind (storeSet store sid e) sid = some e := by
  induction store with
  | nil => simp [storeFind] at h
  | cons p rest ih =>
    by_cases hp : p.1 == sid
    · simp [storeFind, storeSet, hp]
    · have h2 : storeFind rest sid = some e₀ := by
        simpa [storeFind, hp] using h
      simpa [storeFind, storeSet, hp] using ih h2

/-- Writing one key leaves every other key unchanged. -/
theorem storeFind_storeSet_other (store : Store) (sid sid₂ : String)
    (e : StoredEntry) (hne : sid₂ ≠ sid) :
    storeFind (storeSet store sid e) sid₂ = storeFind store sid₂ := by
  induction store with
  | nil => rfl
  | cons p rest ih =>
    by_cases hp : p.1 == sid
    · have hps : p.1 = sid := by simpa using hp
      have hns : (sid == sid₂) = false := beq_eq_false_iff_ne.mpr (Ne.symm hne)
      simp [storeFind, storeSet, hp, hps, hns, ih]
    · by_cases hq : p.1 == sid₂
      · simp [storeFind, storeSet, hp, hq]
      · simp [storeFind, storeSet, hp, hq, ih]

/-! ## Claim theorems -/

/-- C1: a stored session with terminal status makes the poll endpoint
return the stored result immediately: the response is the same for every
provider result (none is ever needed) and for every issuance outcome, and
the store comes back unchanged, so the status never reverts to pending and
the stored terminal fields never change on later polls. -/
theorem C1_poll_terminal_short_circuit (store : Store) (sid : String) (s : Session)
    (h : getStoredSession store sid = some s) :
    (s.status = .complete →
      ∀ pr ir now, pollGET store sid pr ir now = (.completeR, store))
    ∧ (s.status = .failed →
      ∀ pr ir now, pollGET store sid pr ir now = (.failedR s.hintCode, store)) := by
  refine ⟨fun hc pr ir now => ?_, fun hf pr ir now => ?_⟩
  · simp [pollGET, h, hc]
  · simp [pollGET, h, hf]

/-- Witness for C1 at a concrete terminal session: the poll result ignores
a provider response and a failing issuer alike, and the store is unchanged. -/
theorem C1_witness :
    pollGET storeT "sid-c" (some responseCompleteT) (.error .missingPrivateKey) 7 =
      (.completeR, storeT) :=
  (C1_poll_terminal_short_circuit storeT "sid-c" sessionCompleteT rfl).1 rfl
    (some responseCompleteT) (.error .missingPrivateKey) 7

/-- C7: a transport-level provider failure on a pending session surfaces
the retryable unreachable error with HTTP status 502, a response distinct
from every provider-rejected failure response and from the issuance error,
and the store comes back unchanged: the unreachable outcome is never
persisted. -/
theorem C7_poll_unreachable (store : Store) (sid : String) (s : Session)
    (h : getStoredSession store sid = some s) (hp : s.status = .pending) :
    (∀ ir now, pollGET store sid none ir now = (.unreachable, store))
    ∧ pollHttpStatus .unreachable = 502
    ∧ (∀ hc, PollResponse.unreachable ≠ PollResponse.failedR hc)
    ∧ PollResponse.unreachable ≠ PollResponse.jwtError := by
  refine ⟨fun ir now => ?_, rfl, fun hc => by simp, by simp⟩
  simp [pollGET, h, hp]

/-- Witness for C7 at a concrete pending session. -/
theorem C7_witness :
    pollGET storeT "sid-p" none (.ok "tok") 7 = (.unreachable, storeT) :=
  (C7_poll_unreachable storeT "sid-p" sessionPendingT rfl rfl).1 (.ok "tok") 7

/-- C9: a provider response that the type guards classify as none of
complete, failed, pending or not-logged-in makes the poll endpoint return
the bare pending body, with no store mutation. -/
theorem C9_poll_unclassified (store : Store) (sid : String) (s : Session)
    (r : GetSessionResponse)
    (h : getStoredSession store sid = some s) (hp : s.status = .pending)
    (h1 : isComplete r = false) (h2 : isFailed r = false)
    (h3 : isPending r = false) (h4 : isNotLoggedIn r = false) :
    ∀ ir now, pollGET store sid (some r) ir now = (.pendingR none none, store) := by
  intro ir now
  have hua : r.userAttributes = none := by
    cases hx : r.userAttributes with
    | none => rfl
    | some a => rw [isComplete, hx] at h1; simp at h1
  cases hgo : r.grandidObject with
  | none => simp [pollGET, h, hp, hua, hgo, h4]
  | some o =>
    have hf : (o.message.status == "failed") = false := by
      simpa [isFailed, hgo] using h2
    have hpd : (o.message.status == "pending") = false := by
      simpa [isPending, hgo] using h3
    simp [pollGET, h, hp, hua, hgo, hf, hpd, h4]

/-- Witness for C9 at a concrete unclassifiable provider error response. -/
theorem C9_witness :
    pollGET storeT "sid-p" (some responseWeirdT) (.ok "tok") 7 =
      (.pendingR none none, storeT) :=
  C9_poll_unclassified storeT "sid-p" sessionPendingT responseWeirdT rfl rfl
    rfl rfl rfl rfl (.ok "tok") 7

/-- C6: updateSession merges the given fields over the existing record,
leaves grandidSessionId, createdAt and every field absent from the update
unchanged, re-derives the stored TTL from the merged record (hence from
the new status) on every write, leaves every other key unchanged, and is a
no-op when no record exists under the key. -/
theorem C6_updateSession_merge (store : Store) (sid : String) (u : SessionUpdate) :
    (storeFind store sid = none → updateSession store sid u = store)
    ∧ (∀ e : StoredEntry, storeFind store sid = some e →
        storeFind (updateSession store sid u) sid =
          some { session := mergeSession e.session u,
                 ttlSeconds := ttlFor (mergeSession e.session u) }
        ∧ (mergeSession e.session u).grandidSessionId = e.session.grandidSessionId
        ∧ (mergeSession e.session u).createdAt = e.session.createdAt
        ∧ (u.status = none → (mergeSession e.session u).status = e.session.status)
        ∧ (u.jwt = none → (mergeSession e.session u).jwt = e.session.jwt)
        ∧ (u.userAttributes = none →
            (mergeSession e.session u).userAttributes = e.session.userAttributes)
        ∧ (u.hintCode = none →
            (mergeSession e.session u).hintCode = e.session.hintCode)
        ∧ (u.completedAt = none →
            (mergeSession e.session u).completedAt = e.session.completedAt))
    ∧ (∀ sid₂, sid₂ ≠ sid →
        storeFind (updateSession store sid u) sid₂ = storeFind store sid₂) := by
  refine ⟨fun h => ?_, fun e he => ?_, fun sid₂ hne => ?_⟩
  · simp [updateSession, h]
  · refine ⟨?_, rfl, rfl, fun hn => by simp [mergeSession, hn],
      fun hn => by simp [mergeSession, hn], fun hn => by simp [mergeSession, hn],
      fun hn => by simp [mergeSession, hn], fun hn => by simp [mergeSession, hn]⟩
    have := storeFind_storeSet_self store sid
      { session := mergeSession e.session u,
        ttlSeconds := ttlFor (mergeSession e.session u) } e he
    simpa [updateSession, he] using this
  · cases hfind : storeFind store sid with
    | none => simp [updateSession, hfind]
    | some e =>
      simpa [updateSession, hfind] using
        storeFind_storeSet_other store sid sid₂
          { session := mergeSession e.session u,
            ttlSeconds := ttlFor (mergeSession e.session u) } hne

/-- Witness for C6 at a concrete store: updating one key rewrites exactly
that key with the merged record and the re-derived TTL, keeps the
grandidSessionId of the old record, and leaves another key untouched. -/
theorem C6_witness :
    storeFind (updateSession storeT "sid-p" updateStatusOnlyT) "sid-p" =
      some { session := mergeSession sessionPendingT updateStatusOnlyT,
             ttlSeconds := ttlFor (mergeSession sessionPendingT updateStatusOnlyT) }
    ∧ (mergeSession sessionPendingT updateStatusOnlyT).grandidSessionId =
        sessionPendingT.grandidSessionId
    ∧ storeFind (updateSession storeT "sid-p" updateStatusOnlyT) "sid-c" =
        storeFind storeT "sid-c" :=
  ⟨((C6_updateSession_merge storeT "sid-p" updateStatusOnlyT).2.1
      { session := sessionPendingT, ttlSeconds := PENDING_TTL_S } rfl).1,
   ((C6_updateSession_merge storeT "sid-p" updateStatusOnlyT).2.1
      { session := sessionPendingT, ttlSeconds := PENDING_TTL_S } rfl).2.1,
   (C6_updateSession_merge storeT "sid-p" updateStatusOnlyT).2.2 "sid-c"
     (by decide)⟩

/-- C4: when a poll of a pending session observes a completed provider
response, a successful issuance persists status complete, the jwt, the
four retained user attributes and completedAt in one updateSession merge
and returns the success body; a failing issuance instead persists status
failed with hint code JWT_ERROR in one merge and surfaces the issuance
error body with HTTP status 500. -/
theorem C4_poll_complete_transition (store : Store) (sid : String)
    (e : StoredEntry) (r : GetSessionResponse) (ua : GrandidUserAttributes)
    (hfind : storeFind store sid = some e) (hp : e.session.status = .pending)
    (hr : r.userAttributes = some ua) :
    (∀ jwt now, pollGET store sid (some r) (.ok jwt) now =
      (.completeR, updateSession store sid (completeUpdate jwt ua now)))
    ∧ (∀ jwt now,
        getStoredSession (updateSession store sid (completeUpdate jwt ua now)) sid =
          some { e.session with
                 status := .complete,
                 jwt := some jwt,
                 userAttributes := some (retainedAttributes ua),
                 completedAt := some now })
    ∧ (∀ err now, pollGET store sid (some r) (.error err) now =
      (.jwtError, updateSession store sid jwtErrorUpdate))
    ∧ getStoredSession (updateSession store sid jwtErrorUpdate) sid =
        some { e.session with status := .failed, hintCode := some "JWT_ERROR" }
    ∧ pollHttpStatus .jwtError = 500 := by
  have hget : getStoredSession store sid = some e.session := by
    simp [getStoredSession, hfind]
  refine ⟨fun jwt now => ?_, fun jwt now => ?_, fun err now => ?_, ?_, rfl⟩
  · simp [pollGET, hget, hp, hr]
  · have := storeFind_storeSet_self store sid
      { session := mergeSession e.session (completeUpdate jwt ua now),
        ttlSeconds := ttlFor (mergeSession e.session (completeUpdate jwt ua now)) }
      e hfind
    simp only [updateSession, hfind, getStoredSession, this, Option.map_some]
    simp [mergeSession, completeUpdate]
  · simp [pollGET, hget, hp, hr]
  · have := storeFind_storeSet_self store sid
      { session := mergeSession e.session jwtErrorUpdate,
        ttlSeconds := ttlFor (mergeSession e.session jwtErrorUpdate) }
      e hfind
    simp only [updateSession, hfind, getStoredSession, this, Option.map_some]
    simp [mergeSession, jwtErrorUpdate]

/-- Witness for C4 at a concrete pending session and completed response. -/
theorem C4_witness :
    pollGET storeT "sid-p" (some responseCompleteT) (.ok "tok-x") 42 =
      (.completeR, updateSession storeT "sid-p"
        (completeUpdate "tok-x" grandidAttributesT 42))
    ∧ pollGET storeT "sid-p" (some responseCompleteT)
        (.error .missingPrivateKey) 42 =
      (.jwtError, updateSession storeT "sid-p" jwtErrorUpdate) :=
  ⟨(C4_poll_complete_transition storeT "sid-p"
      { session := sessionPendingT, ttlSeconds := PENDING_TTL_S }
      responseCompleteT grandidAttributesT rfl rfl rfl).1 "tok-x" 42,
   (C4_poll_complete_transition storeT "sid-p"
      { session := sessionPendingT, ttlSeconds := PENDING_TTL_S }
      responseCompleteT grandidAttributesT rfl rfl rfl).2.2.1 .missingPrivateKey 42⟩

/-- The fallback tail of the status handler never produces a complete
body. -/
theorem statusFallback_ne_complete (s : Session) (j : String) :
    statusFallback s ≠ .completeR j := by
  unfold statusFallback
  split <;> simp

/-- C10: the status endpoint answers pending for a stored session whose
status is complete but whose jwt field is absent, and it answers complete
with a jwt only when the stored status is complete and that jwt is
stored. -/
theorem C10_status_requires_jwt (store : Store) (sid : String) (s : Session)
    (h : getStoredSession store sid = some s) :
    (s.status = .complete → s.jwt = none →
      statusGET store (some sid) = .pendingR)
    ∧ (∀ j, statusGET store (some sid) = .completeR j →
        s.status = .complete ∧ s.jwt = some j) := by
  constructor
  · intro hc hj
    simp [statusGET, h, hj, statusFallback, hc]
  · intro j hres
    simp only [statusGET, h] at hres
    split at hres
    · rename_i jj hj
      split at hres
      · rename_i hcond
        cases hres
        exact ⟨hcond.1, hj⟩
      · exact absurd hres (statusFallback_ne_complete s j)
    · exact absurd hres (statusFallback_ne_complete s j)

/-- Witness for C10 at a concrete complete session without a jwt. -/
theorem C10_witness :
    statusGET storeNoJwtT (some "sid-n") = .pendingR :=
  (C10_status_requires_jwt storeNoJwtT "sid-n" sessionCompleteNoJwtT rfl).1
    rfl rfl

/-- C3: deriveSubject returns exactly the hex-encoded HMAC-SHA256 of the
personal number keyed by the configured secret, and its result depends
only on the secret and the personal number: any environment holding the
same secret yields the same pseudonymous identifier. -/
theorem C3_deriveSubject_hmac (env env₂ : Env) (secret p : String)
    (hs : env.JWT_HMAC_SECRET = some secret)
    (hsame : env₂.JWT_HMAC_SECRET = env.JWT_HMAC_SECRET) :
    deriveSubject env p =
      .ok (hexDigest (hmacSha256 (utf8Bytes secret) (utf8Bytes p)))
    ∧ deriveSubject env₂ p = deriveSubject env p := by
  constructor
  · simp [deriveSubject, hs]
  · simp [deriveSubject, hsame]

/-- Witness for C3 at a concrete secret and personal number, with a second
environment differing in its other variables. -/
theorem C3_witness :
    deriveSubject envT "199001010000" =
      .ok (hexDigest (hmacSha256 (utf8Bytes "test-secret")
            (utf8Bytes "199001010000")))
    ∧ deriveSubject { JWT_HMAC_SECRET := some "test-secret" } "199001010000" =
        deriveSubject envT "199001010000" :=
  C3_deriveSubject_hmac envT { JWT_HMAC_SECRET := some "test-secret" }
    "test-secret" "199001010000" rfl rfl

/-- C2: the issued token has header exactly alg and kid and claim names
exactly auth_method, iat, iss, sub, jti, exp; its only string-valued
claims are the fixed tag bankid, the fixed issuer agentid, the fresh
token id and the HMAC-derived pseudonymous subject, so no name field or
raw personal number appears in the signed token; and the token is
invariant under changing the name attributes while keeping the personal
number. -/
theorem C2_jwt_pseudonymous (env : Env) (secret pk : String) (now : Nat)
    (jti : String) (ua : GrandidUserAttributes)
    (hs : env.JWT_HMAC_SECRET = some secret)
    (hk : env.JWT_PRIVATE_KEY = some pk) :
    issueFromAttributes env now jti ua =
      .ok (agentIdToken secret ua.personalNumber now jti)
    ∧ (agentIdToken secret ua.personalNumber now jti).header =
        [("alg", "RS256"), ("kid", "agentid-key-1")]
    ∧ (agentIdToken secret ua.personalNumber now jti).payload.map Prod.fst =
        ["auth_method", "iat", "iss", "sub", "jti", "exp"]
    ∧ (∀ ua₂ : GrandidUserAttributes, ua₂.personalNumber = ua.personalNumber →
        issueFromAttributes env now jti ua₂ = issueFromAttributes env now jti ua)
    ∧ (∀ x, x ∈ payloadStrings (agentIdToken secret ua.personalNumber now jti) →
        x = "bankid" ∨ x = "agentid" ∨ x = jti ∨
        x = hexDigest (hmacSha256 (utf8Bytes secret)
              (utf8Bytes ua.personalNumber))) := by
  refine ⟨?_, by simp [agentIdToken, KEY_ID], by simp [agentIdToken],
    fun ua₂ hpn => ?_, fun x hx => ?_⟩
  · simp [issueFromAttributes, issueJwt, deriveSubject, hs, hk, agentIdToken,
      KEY_ID, ISSUER, expirySeconds]
  · simp [issueFromAttributes, issueJwt, deriveSubject, hs, hk, hpn]
  · simp [payloadStrings, agentIdToken, ISSUER] at hx
    tauto

/-- Witness for C2 at a concrete environment and concrete attributes: the
token equals the explicit pseudonymous content, and swapping the name
fields leaves the issued token unchanged. -/
theorem C2_witness :
    issueFromAttributes envT 1000 "jti-1" grandidAttributesT =
      .ok (agentIdToken "test-secret" "199001010000" 1000 "jti-1")
    ∧ issueFromAttributes envT 1000 "jti-1" grandidAttributesAltT =
        issueFromAttributes envT 1000 "jti-1" grandidAttributesT :=
  ⟨(C2_jwt_pseudonymous envT "test-secret" "test-pem" 1000 "jti-1"
      grandidAttributesT rfl rfl).1,
   (C2_jwt_pseudonymous envT "test-secret" "test-pem" 1000 "jti-1"
      grandidAttributesT rfl rfl).2.2.2.1 grandidAttributesAltT rfl⟩

/-- C5 counterexample: a failed session is terminal, yet its stored TTL is
the short pending TTL, not the longer one-hour TTL of complete sessions. -/
theorem C5_counterexample :
    ttlFor sessionFailedT = PENDING_TTL_S
    ∧ PENDING_TTL_S ≠ COMPLETE_TTL_S := ⟨rfl, by decide⟩

/-- C5 amended: the expiry policy keys on completion, not on terminality:
pending sessions get the short ten-minute TTL, complete sessions get the
one-hour TTL, and failed sessions also get the short ten-minute TTL. -/
theorem C5_ttl_policy (s : Session) :
    (s.status = .pending → ttlFor s = PENDING_TTL_S)
    ∧ (s.status = .complete → ttlFor s = COMPLETE_TTL_S)
    ∧ (s.status = .failed → ttlFor s = PENDING_TTL_S)
    ∧ PENDING_TTL_S = 10 * 60 ∧ COMPLETE_TTL_S = 60 * 60 := by
  refine ⟨fun h => ?_, fun h => ?_, fun h => ?_, rfl, rfl⟩ <;> simp [ttlFor, h]

/-- Witness for C5 at the three concrete sessions. -/
theorem C5_witness :
    ttlFor sessionPendingT = PENDING_TTL_S
    ∧ ttlFor sessionCompleteT = COMPLETE_TTL_S
    ∧ ttlFor sessionFailedT = PENDING_TTL_S :=
  ⟨(C5_ttl_policy sessionPendingT).1 rfl,
   (C5_ttl_policy sessionCompleteT).2.1 rfl,
   (C5_ttl_policy sessionFailedT).2.2.1 rfl⟩

/-- C8 counterexample: a concretely issued token has exp minus iat equal
to 300 seconds, which is not the advertised one-hour window. -/
theorem C8_counterexample :
    tokenExpMinusIat (issueJwt envT 1000 "jti-1"
      { personalNumber := "199001010000" }) = some 300
    ∧ (300 : Nat) ≠ 60 * 60 := ⟨rfl, by decide⟩

/-- C8 amended: every issued token has exp minus iat equal to the one
configured EXPIRY duration of five minutes (300 seconds), the same for all
tokens; that duration is not the advertised one-hour validity window. -/
theorem C8_token_validity (env : Env) (secret pk : String) (now : Nat)
    (jti p : String)
    (hs : env.JWT_HMAC_SECRET = some secret)
    (hk : env.JWT_PRIVATE_KEY = some pk) :
    tokenExpMinusIat (issueJwt env now jti { personalNumber := p }) =
      some expirySeconds
    ∧ expirySeconds = 5 * 60 ∧ expirySeconds ≠ 60 * 60 := by
  refine ⟨?_, rfl, by decide⟩
  simp only [issueJwt, deriveSubject, hs, hk]
  simp [tokenExpMinusIat, payloadNum, expirySeconds]

/-- Witness for C8 at a concrete environment, timestamp and personal
number. -/
theorem C8_witness :
    tokenExpMinusIat (issueJwt envT 2000 "jti-2"
      { personalNumber := "199001010000" }) = some expirySeconds :=
  (C8_token_validity envT "test-secret" "test-pem" 2000 "jti-2"
    "199001010000" rfl rfl).1
